import Mathlib

/-!
Shallow embedding of the Composite-pattern demo repository.

Two source programs are modelled:

1. The view hierarchy (`ViewComponent` / `ViewComposite` /
   `DecoratorComposite` / `PrintLeaf`): class instances become an inductive
   tree, `console.log` output becomes an accumulated list of lines, and a
   thrown exception becomes an `Option JsError` carried alongside the output.
   `draw` is embedded in state-passing style: it returns the post-state of
   the receiver together with the emitted lines and the error, mirroring the
   mutable object graph of the source.

2. The priced-item hierarchy (`Product` / `Collection`): objects become an
   inductive tree in which every node carries a numeric tag standing for its
   reference identity, so that the `Set`-based deduplication of the source
   (which compares object references) can be expressed.
-/

/-- Errors thrown by the modelled programs: `jsError msg` stands for
`new Error(msg)` and `jsTypeError msg` for the TypeError the runtime raises
when a missing method or iterator is invoked. -/
inductive JsError where
  | jsError (msg : String)
  | jsTypeError (msg : String)
  deriving DecidableEq, Repr

/-- The view hierarchy of the source: `base` is a plain `ViewComponent`
instance, `printLeaf` a `PrintLeaf` with its `text` field, `viewComposite`
a `ViewComposite` with its private `#children` array, and
`decoratorComposite` a `DecoratorComposite` (which inherits the `#children`
array from `ViewComposite`). -/
inductive ViewComponent where
  | base
  | printLeaf (text : String)
  | viewComposite (children : List ViewComponent)
  | decoratorComposite (children : List ViewComponent)

/-- Result of drawing one component: the post-state of the component, the
lines printed to the console, and the exception if one was thrown. -/
structure DrawResult where
  post : ViewComponent
  out : List String
  err : Option JsError

/-- Result of drawing a list of children (the `forEach` loop): post-states,
printed lines, and the exception if one was thrown part-way. -/
structure DrawListResult where
  post : List ViewComponent
  out : List String
  err : Option JsError

mutual

/-- Embedding of `draw()`.  `ViewComponent.draw` throws
`new Error('Not implemented')`; `PrintLeaf.draw` logs its text;
`ViewComposite.draw` runs `this.#children.forEach(child => child.draw())`;
`DecoratorComposite.draw` logs `NestedStart`, calls `super.draw()`, and logs
`NestedEnd` (the trailing log is skipped if `super.draw()` throws). -/
def ViewComponent.draw : ViewComponent → DrawResult
  | .base => ⟨.base, [], some (JsError.jsError "Not implemented")⟩
  | .printLeaf t => ⟨.printLeaf t, [t], none⟩
  | .viewComposite cs =>
    let r := drawList cs
    ⟨.viewComposite r.post, r.out, r.err⟩
  | .decoratorComposite cs =>
    let r := drawList cs
    match r.err with
    | some e => ⟨.decoratorComposite r.post, "NestedStart" :: r.out, some e⟩
    | none => ⟨.decoratorComposite r.post, "NestedStart" :: (r.out ++ ["NestedEnd"]), none⟩

/-- The `forEach` loop of `ViewComposite.draw`: draws each child in order,
stopping (with the output emitted so far) at the first child that throws. -/
def drawList : List ViewComponent → DrawListResult
  | [] => ⟨[], [], none⟩
  | c :: rest =>
    let r := ViewComponent.draw c
    match r.err with
    | some e => ⟨r.post :: rest, r.out, some e⟩
    | none =>
      let rs := drawList rest
      ⟨r.post :: rs.post, r.out ++ rs.out, rs.err⟩

end

/-- Embedding of `add(child)`: `ViewComposite.add` pushes onto `#children`
(returning the updated receiver); on `ViewComponent` or `PrintLeaf` no such
method exists, so the call throws a TypeError. -/
def ViewComponent.add (self child : ViewComponent) : Except JsError ViewComponent :=
  match self with
  | .viewComposite cs => .ok (.viewComposite (cs ++ [child]))
  | .decoratorComposite cs => .ok (.decoratorComposite (cs ++ [child]))
  | .base => .error (JsError.jsTypeError "add is not a function")
  | .printLeaf _ => .error (JsError.jsTypeError "add is not a function")

/-- Embedding of `remove(child)`: the source body is
`this.#children.remove(child)`, and JavaScript arrays have no `remove`
method, so on a composite the call always throws a TypeError before touching
the array; on `ViewComponent` or `PrintLeaf` the method itself is missing. -/
def ViewComponent.remove (self _child : ViewComponent) : Except JsError ViewComponent :=
  match self with
  | .viewComposite _ => .error (JsError.jsTypeError "this.children.remove is not a function")
  | .decoratorComposite _ => .error (JsError.jsTypeError "this.children.remove is not a function")
  | .base => .error (JsError.jsTypeError "remove is not a function")
  | .printLeaf _ => .error (JsError.jsTypeError "remove is not a function")

/-- Embedding of the iterator method: `ViewComposite` (and, by inheritance,
`DecoratorComposite`) returns an iterator over the `#children` array, here
the list of direct children in insertion order; other variants are not
iterable and the `for..of` attempt throws a TypeError. -/
def ViewComponent.iterate (self : ViewComponent) : Except JsError (List ViewComponent) :=
  match self with
  | .viewComposite cs => .ok cs
  | .decoratorComposite cs => .ok cs
  | .base => .error (JsError.jsTypeError "object is not iterable")
  | .printLeaf _ => .error (JsError.jsTypeError "object is not iterable")

/-- The priced-item hierarchy of the source: a `product` carries its `name`
and `productPrice` fields, a `collection` its `name` and its `set` of
members.  Every node additionally carries a numeric tag modelling its
JavaScript reference identity: two nodes denote the same object exactly when
their tags are equal. -/
inductive PricedItem where
  | product (tag : Nat) (name : String) (productPrice : Int)
  | collection (tag : Nat) (name : String) (set : List PricedItem)

/-- The reference-identity tag of an item. -/
def PricedItem.tag : PricedItem → Nat
  | .product tg _ _ => tg
  | .collection tg _ _ => tg

/-- Reference equality between items, as the JavaScript `Set` compares its
elements: two expressions denote the same object exactly when their tags
coincide. -/
def refEq (a b : PricedItem) : Bool :=
  a.tag == b.tag

/-- One step of `Set` construction: an element already present (by reference)
is skipped, otherwise it is appended, preserving insertion order. -/
def jsSetInsert (l : List PricedItem) (x : PricedItem) : List PricedItem :=
  if l.any (fun y => refEq y x) then l else l ++ [x]

/-- Embedding of `new Set(products)`: deduplicates by reference identity,
keeping the first occurrence of each element in insertion order. -/
def jsSetOf (l : List PricedItem) : List PricedItem :=
  l.foldl jsSetInsert []

/-- Embedding of the `Collection` constructor: stores the name and
`this.set = new Set(products)`. -/
def Collection.make (tg : Nat) (name : String) (products : List PricedItem) : PricedItem :=
  .collection tg name (jsSetOf products)

mutual

/-- Embedding of the `price` getter: a `Product` returns its stored
`productPrice`; a `Collection` starts from `0` and adds `item.price` for each
item of its set, recomputing on every access. -/
def PricedItem.price : PricedItem → Int
  | .product _ _ p => p
  | .collection _ _ s => priceList s

/-- The summation loop of `Collection`'s `price` getter over its members. -/
def priceList : List PricedItem → Int
  | [] => 0
  | i :: rest => PricedItem.price i + priceList rest

end

/-! The usage section of the priced-item program, with distinct identity
tags for the distinct `new` expressions. -/

/-- The product `new Product('Laptop', 1500)` of the usage section. -/
def p1 : PricedItem := .product 1 "Laptop" 1500

/-- The product `new Product('Mouse', 25)` of the usage section. -/
def p2 : PricedItem := .product 2 "Mouse" 25

/-- The product `new Product('Keyboard', 100)` of the usage section. -/
def p3 : PricedItem := .product 3 "Keyboard" 100

/-- The product `new Product('HDMI cable', 10)` of the usage section. -/
def p4 : PricedItem := .product 4 "HDMI cable" 10

/-- The collection `new Collection('Electronics', p1, p2, p3, p4)`. -/
def electronics : PricedItem := Collection.make 5 "Electronics" [p1, p2, p3, p4]

/-- The product `new Product('Bag', 50)` of the usage section. -/
def p5 : PricedItem := .product 6 "Bag" 50

/-- The product `new Product('Mouse pad', 5)` of the usage section. -/
def p6 : PricedItem := .product 7 "Mouse pad" 5

/-- The collection `new Collection('Textile', p5, p6)`. -/
def textile : PricedItem := Collection.make 8 "Textile" [p5, p6]

/-- The collection `new Collection('Purchase', electronics, textile)`. -/
def purchase : PricedItem := Collection.make 9 "Purchase" [electronics, textile]

/-! Helper lemmas shared by the theorems below. -/

mutual

/-- Drawing never changes the drawn component: the post-state equals the
pre-state. -/
theorem draw_post : ∀ (v : ViewComponent), (ViewComponent.draw v).post = v
  | .base => rfl
  | .printLeaf _ => rfl
  | .viewComposite cs => by
    simp only [ViewComponent.draw, drawList_post cs]
  | .decoratorComposite cs => by
    simp only [ViewComponent.draw]
    cases h : (drawList cs).err with
    | none => simp only [drawList_post cs]
    | some e => simp only [drawList_post cs]

/-- Drawing a child list never changes the children. -/
theorem drawList_post : ∀ (l : List ViewComponent), (drawList l).post = l
  | [] => rfl
  | c :: rest => by
    simp only [drawList]
    cases h : (ViewComponent.draw c).err with
    | none => simp only [draw_post c, drawList_post rest]
    | some e => simp only [draw_post c]

end

/-- When every child draws without raising, the `forEach` loop leaves the
children intact, emits the concatenation of the children's outputs in order,
and raises nothing. -/
theorem drawList_noErr (l : List ViewComponent)
    (h : ∀ c ∈ l, (ViewComponent.draw c).err = none) :
    drawList l = ⟨l, (l.map fun c => (ViewComponent.draw c).out).flatten, none⟩ := by
  induction l with
  | nil => rfl
  | cons c rest ih =>
    have hc : (ViewComponent.draw c).err = none := h c (List.mem_cons_self c rest)
    have hrest : ∀ x ∈ rest, (ViewComponent.draw x).err = none :=
      fun x hx => h x (List.mem_cons_of_mem c hx)
    simp only [drawList, hc, ih hrest, draw_post c, List.map_cons, List.flatten_cons]

/-! Claim theorems. -/

/-- C1: the claim says `remove(child)` removes the matching occurrence and
excludes it from later traversals.  The code instead calls the non-existent
`Array.prototype.remove`, so `remove` always throws a TypeError and the child
list is untouched: here, on a composite holding `PrintLeaf "hello"`, removing
that very child throws, and a subsequent `draw` still prints `hello`. -/
theorem remove_throws_type_error :
    ViewComponent.remove (ViewComponent.viewComposite [ViewComponent.printLeaf "hello"])
        (ViewComponent.printLeaf "hello")
      = Except.error (JsError.jsTypeError "this.children.remove is not a function")
    ∧ (ViewComponent.draw
        (ViewComponent.viewComposite [ViewComponent.printLeaf "hello"])).out = ["hello"] :=
  ⟨rfl, rfl⟩

/-- C2: a Product's `price` equals its stored price; a Collection's `price`
is the sum of the prices of its current members (its deduplicated set); the
Electronics collection of the usage section has price 1635 and the nested
Purchase collection has price 1690. -/
theorem price_sums_members :
    (∀ (tg : Nat) (n : String) (p : Int), (PricedItem.product tg n p).price = p)
    ∧ (∀ (tg : Nat) (n : String) (items : List PricedItem),
        (Collection.make tg n items).price = priceList (jsSetOf items))
    ∧ electronics.price = 1635
    ∧ purchase.price = 1690 := by
  refine ⟨fun tg n p => rfl, fun tg n items => rfl, by decide, by decide⟩

/-- C3: when every child draws without raising, drawing a composite leaves it
unchanged, emits exactly the concatenation of the children's outputs in
insertion order, and raises nothing. -/
theorem composite_draw_concatenates_children :
    ∀ cs : List ViewComponent, (∀ c ∈ cs, (ViewComponent.draw c).err = none) →
      ViewComponent.draw (ViewComponent.viewComposite cs)
        = ⟨ViewComponent.viewComposite cs,
            (cs.map fun c => (ViewComponent.draw c).out).flatten, none⟩ := by
  intro cs h
  simp only [ViewComponent.draw, drawList_noErr cs h]

/-- Witness for C3: a composite of `PrintLeaf "hello"` and
`PrintLeaf "world"` draws `hello` then `world`. -/
theorem composite_draw_concatenates_children_witness :
    ViewComponent.draw (ViewComponent.viewComposite
        [ViewComponent.printLeaf "hello", ViewComponent.printLeaf "world"])
      = ⟨ViewComponent.viewComposite
          [ViewComponent.printLeaf "hello", ViewComponent.printLeaf "world"],
          ["hello", "world"], none⟩ := by
  have h := composite_draw_concatenates_children
    [ViewComponent.printLeaf "hello", ViewComponent.printLeaf "world"]
    (by intro c hc; fin_cases hc <;> rfl)
  exact h.trans rfl

/-- C4: when every child draws without raising, a DecoratorComposite's output
is exactly the `NestedStart` marker line, the children's combined output in
insertion order, and the `NestedEnd` marker line. -/
theorem decorator_draw_emits_markers :
    ∀ cs : List ViewComponent, (∀ c ∈ cs, (ViewComponent.draw c).err = none) →
      ViewComponent.draw (ViewComponent.decoratorComposite cs)
        = ⟨ViewComponent.decoratorComposite cs,
            "NestedStart" ::
              ((cs.map fun c => (ViewComponent.draw c).out).flatten ++ ["NestedEnd"]),
            none⟩ := by
  intro cs h
  simp only [ViewComponent.draw, drawList_noErr cs h]

/-- Witness for C4: a decorator over `PrintLeaf "a"` and `PrintLeaf "b"`
draws `NestedStart`, `a`, `b`, `NestedEnd`. -/
theorem decorator_draw_emits_markers_witness :
    ViewComponent.draw (ViewComponent.decoratorComposite
        [ViewComponent.printLeaf "a", ViewComponent.printLeaf "b"])
      = ⟨ViewComponent.decoratorComposite
          [ViewComponent.printLeaf "a", ViewComponent.printLeaf "b"],
          ["NestedStart", "a", "b", "NestedEnd"], none⟩ := by
  have h := decorator_draw_emits_markers
    [ViewComponent.printLeaf "a", ViewComponent.printLeaf "b"]
    (by intro c hc; fin_cases hc <;> rfl)
  exact h.trans rfl

/-- C5 counterexample: the claim says invoking `add` on a Leaf raises the
"not implemented" error; in the code the Leaf simply has no `add` method, so
the call raises a TypeError, which is a different error value. -/
theorem leaf_add_error_differs :
    ViewComponent.add (ViewComponent.printLeaf "hello") ViewComponent.base
        = Except.error (JsError.jsTypeError "add is not a function")
    ∧ JsError.jsTypeError "add is not a function" ≠ JsError.jsError "Not implemented" :=
  ⟨rfl, by decide⟩

/-- C5 (amended): `draw()` on the base abstraction raises the
`Not implemented` Error; `add`, `remove` and iteration on a Leaf each raise a
TypeError for the missing capability; in every case an error propagates and
the invocation never succeeds. -/
theorem unsupported_ops_always_fail :
    (ViewComponent.draw ViewComponent.base).err = some (JsError.jsError "Not implemented")
    ∧ (∀ (t : String) (x : ViewComponent), ViewComponent.add (ViewComponent.printLeaf t) x
        = Except.error (JsError.jsTypeError "add is not a function"))
    ∧ (∀ (t : String) (x : ViewComponent), ViewComponent.remove (ViewComponent.printLeaf t) x
        = Except.error (JsError.jsTypeError "remove is not a function"))
    ∧ (∀ t : String, ViewComponent.iterate (ViewComponent.printLeaf t)
        = Except.error (JsError.jsTypeError "object is not iterable")) :=
  ⟨rfl, fun _ _ => rfl, fun _ _ => rfl, fun _ => rfl⟩

/-- C6: membership is deduplicated by reference identity: the same product
reference supplied twice contributes once to the collection's price, while
two distinct references with equal name and price each contribute. -/
theorem collection_dedup_by_identity :
    ∀ (ctag i j : Nat) (cn n : String) (p : Int),
      (Collection.make ctag cn
          [PricedItem.product i n p, PricedItem.product i n p]).price = p
      ∧ (i ≠ j →
        (Collection.make ctag cn
            [PricedItem.product i n p, PricedItem.product j n p]).price = p + p) := by
  intro ctag i j cn n p
  constructor
  · simp [Collection.make, jsSetOf, jsSetInsert, refEq, PricedItem.tag,
      PricedItem.price, priceList]
  · intro hij
    simp [Collection.make, jsSetOf, jsSetInsert, refEq, PricedItem.tag,
      PricedItem.price, priceList, hij]

/-- Witness for C6: the same reference (tag 1) twice yields price 25; two
distinct references (tags 1 and 2) with equal name and price yield 50. -/
theorem collection_dedup_by_identity_witness :
    (Collection.make 0 "c" [PricedItem.product 1 "m" 25, PricedItem.product 1 "m" 25]).price = 25
    ∧ (Collection.make 0 "c"
        [PricedItem.product 1 "m" 25, PricedItem.product 2 "m" 25]).price = 25 + 25 :=
  ⟨(collection_dedup_by_identity 0 1 2 "c" "m" 25).1,
    (collection_dedup_by_identity 0 1 2 "c" "m" 25).2 (by decide)⟩

/-- C7: iterating a composite (or a decorator composite, by inheritance)
yields exactly its direct children, each once, in insertion order, with no
deep traversal; the sequence is a fixed finite list, so a second iteration
yields the same sequence. -/
theorem iterate_yields_direct_children :
    ∀ cs : List ViewComponent,
      ViewComponent.iterate (ViewComponent.viewComposite cs) = Except.ok cs
      ∧ ViewComponent.iterate (ViewComponent.decoratorComposite cs) = Except.ok cs :=
  fun _ => ⟨rfl, rfl⟩

/-- C8: drawing a leaf emits exactly one line equal to its payload, raises
nothing and leaves the leaf unchanged, and drawing the resulting state again
emits the same single line. -/
theorem leaf_draw_one_line_idempotent :
    ∀ t : String,
      ViewComponent.draw (ViewComponent.printLeaf t)
          = ⟨ViewComponent.printLeaf t, [t], none⟩
      ∧ (ViewComponent.draw ((ViewComponent.draw (ViewComponent.printLeaf t)).post)).out
          = [t] :=
  fun _ => ⟨rfl, rfl⟩

/-- C9: a collection constructed with no members has price 0. -/
theorem empty_collection_price_zero :
    ∀ (tg : Nat) (n : String), (Collection.make tg n []).price = 0 :=
  fun _ _ => rfl

/-- C10: drawing a composite or decorator composite leaves its child sequence
unchanged: the post-state equals the pre-state, children included. -/
theorem draw_preserves_children :
    ∀ cs : List ViewComponent,
      (ViewComponent.draw (ViewComponent.viewComposite cs)).post
          = ViewComponent.viewComposite cs
      ∧ (ViewComponent.draw (ViewComponent.decoratorComposite cs)).post
          = ViewComponent.decoratorComposite cs :=
  fun _ => ⟨draw_post _, draw_post _⟩
